import Mathlib

/-!
Verification development for the MarineDetect backend.

The definitions below are a shallow embedding of the two relevant source
files:

* `backend/app/main.py` — the `GET /results/{filename}` handler
  (`get_result_video`, its `range_stream` generator, and the range-header
  parsing it performs inline);
* `backend/utils/marine.py` — the detection pipelines (`predict_on_images`
  / `predict_on_video` per-frame ensemble loop, `combine_results`,
  `save_combined_image`).

Files are modelled as lists of bytes (`List Nat`), strings as `List Char`
(Python string operations such as `strip`/`split` are re-implemented on
character lists so that every definition evaluates by kernel reduction),
Python exceptions as `Option`/`Except`.
-/

namespace MarineDetect

/-- Python `str.strip()`: drop whitespace from both ends of the string. -/
def stripChars (l : List Char) : List Char :=
  ((l.dropWhile Char.isWhitespace).reverse.dropWhile Char.isWhitespace).reverse

/-- Python `str.split(sep)` for a one-character separator: split on every
occurrence, keeping empty pieces, so the result is always nonempty. -/
def splitOnChar (c : Char) : List Char → List (List Char)
  | [] => [[]]
  | x :: xs =>
    let r := splitOnChar c xs
    if x = c then [] :: r
    else
      match r with
      | [] => [[x]]
      | y :: ys => (x :: y) :: ys

/-- Fold a run of decimal digits into a number; any non-digit character means
the string does not parse (Python `int` raises `ValueError`). -/
def digitsToNat (l : List Char) : Option Nat :=
  l.foldl
    (fun acc c =>
      match acc with
      | none => none
      | some n => if c.isDigit then some (n * 10 + (c.toNat - 48)) else none)
    (some 0)

/-- Python `int(s)` on the strings that can reach it in the handler: the
caller has already split on `'-'`, so `s` never contains a hyphen; we model
whitespace stripping, an optional leading `'+'`, and a nonempty digit run.
Returns `none` where Python raises `ValueError`. -/
def pyInt (l : List Char) : Option Nat :=
  let t := stripChars l
  let t :=
    match t with
    | '+' :: rest => rest
    | _ => t
  if t = [] then none else digitsToNat t

/-- main.py lines 139-140: `int(part) if part else default` — an empty piece
falls back to the default without being parsed. -/
def parsePart (p : List Char) (default : Int) : Option Int :=
  if p = [] then some default else (pyInt p).map Int.ofNat

/-- main.py lines 137-140: take the text after the last `'='` of the stripped
header, split it on `'-'` (exactly two pieces, otherwise the tuple unpacking
raises `ValueError`), and parse start (default `0`) and end (default
`file_size - 1`). `none` models a `ValueError` escaping to the
`except` at line 167. The clamp of the end value (line 141) is performed by
the handler, not here. -/
def parseRangeHeader (h : List Char) (fileSize : Int) : Option (Int × Int) :=
  let rangeVal := (splitOnChar '=' (stripChars h)).getLastD []
  match splitOnChar '-' rangeVal with
  | [a, b] =>
    match parsePart a 0, parsePart b (fileSize - 1) with
    | some s, some e => some (s, e)
    | _, _ => none
  | _ => none

/-- main.py lines 144-154, the body of the `range_stream` generator, with an
explicit fuel argument to make the recursion structural: starting from the
bytes `l` at the seek position, read `min(4096, remaining)` bytes at a time,
stopping when `remaining ≤ 0` or the file is exhausted (`if not chunk`).
Every call site supplies fuel `l.length + 1`, which is always sufficient
because each iteration consumes at least one byte of `l`
(see `range_stream_eq_take`). -/
def rangeStreamFuel : Nat → List Nat → Int → List Nat
  | 0, _, _ => []
  | fuel + 1, l, remaining =>
    if 0 < remaining then
      let chunk := l.take (min 4096 remaining).toNat
      if chunk.length = 0 then []
      else chunk ++ rangeStreamFuel fuel (l.drop chunk.length) (remaining - chunk.length)
    else []

/-- main.py lines 144-158: the `range_stream` generator applied to the bytes
from the seek position, producing the streamed payload. -/
def range_stream (l : List Nat) (remaining : Int) : List Nat :=
  rangeStreamFuel (l.length + 1) l remaining

/-- The observable parts of the HTTP response assembled by the handler:
status code, the `Content-Range` header (absent on a full response), the
`Content-Length` header value, and the streamed body bytes. -/
structure RangeResponse where
  status : Nat
  contentRange : Option String
  contentLength : Nat
  payload : List Nat
deriving DecidableEq, Repr

/-- main.py lines 118-195, `get_result_video`, for an existing file given as
its byte list (`file_size = file.length`).  `Except.error c` models
`raise HTTPException(status_code=c)`.  With a range header the handler
parses it (any `ValueError` is caught at line 167 and re-raised as a 400),
clamps the end to `file_size - 1`, computes `chunk_size = end - start + 1`,
and returns a 206 `StreamingResponse` whose headers carry
`Content-Range: bytes start-end/file_size` and the `Content-Length` set at
line 131 (the full file size — it is never updated to `chunk_size`); the
body is produced by `range_stream` after seeking to `start`.  Without a
range header the whole file is streamed with status 200. -/
def get_result_video (file : List Nat) (rangeHeader : Option (List Char)) :
    Except Nat RangeResponse :=
  let fileSize : Int := file.length
  match rangeHeader with
  | none =>
    Except.ok
      { status := 200
        contentRange := none
        contentLength := file.length
        payload := file }
  | some h =>
    match parseRangeHeader h fileSize with
    | none => Except.error 400
    | some (rangeStart, e) =>
      let rangeEnd := min e (fileSize - 1)
      let chunkSize := rangeEnd - rangeStart + 1
      Except.ok
        { status := 206
          contentRange := some s!"bytes {rangeStart}-{rangeEnd}/{fileSize}"
          contentLength := file.length
          payload := range_stream (file.drop rangeStart.toNat) chunkSize }

/-- A pixel grid: the image as a list of rows.  Still images flow through
`save_combined_image` as such arrays; rotations below are the pixel-level
meaning of PIL `Image.rotate(angle, expand=True)` (counterclockwise). -/
abbrev Grid (α : Type) := List (List α)

/-- PIL `rotate(90, expand=True)`: 90 degrees counterclockwise. -/
def rotate90 {α : Type} (img : Grid α) : Grid α :=
  (img.map List.reverse).transpose

/-- PIL `rotate(180, expand=True)`: 180 degrees. -/
def rotate180 {α : Type} (img : Grid α) : Grid α :=
  (img.map List.reverse).reverse

/-- PIL `rotate(270, expand=True)`: 270 degrees counterclockwise
(equivalently 90 degrees clockwise). -/
def rotate270 {α : Type} (img : Grid α) : Grid α :=
  img.transpose.map List.reverse

/-- The numeric id of the EXIF `Orientation` tag found by the loop at
marine.py lines 48-50 (`ExifTags.TAGS[274] == "Orientation"`). -/
def orientationTagId : Nat := 274

/-- Python dict lookup `exif[tag]` on the EXIF dictionary, as an
association list: `none` models the `KeyError` caught at line 59. -/
def lookupTag (k : Nat) : List (Nat × Nat) → Option Nat
  | [] => none
  | (k', v) :: rest => if k' = k then some v else lookupTag k rest

/-- marine.py lines 47-61: the EXIF orientation correction of
`save_combined_image`.  `exif = none` models `_getexif()` returning `None`
(the `AttributeError` caught at line 59); a dictionary without the
orientation tag models the caught `KeyError`.  Tag 3 rotates 180 degrees,
tag 6 rotates 270, tag 8 rotates 90; every other case leaves the image
untouched and raises no error. -/
def applyExifOrientation {α : Type} (exif : Option (List (Nat × Nat)))
    (img : Grid α) : Grid α :=
  match exif with
  | none => img
  | some d =>
    match lookupTag orientationTagId d with
    | some 3 => rotate180 img
    | some 6 => rotate270 img
    | some 8 => rotate90 img
    | _ => img

/-- marine.py lines 71-90, `combine_results`: every detection result is
drawn onto a single mutable accumulator seeded from the base image
(`combined_image = result.plot(img=combined_image)`), iterating the outer
results list and each result's own entries in order.  A detection-level
result is modelled by its `plot` action on the image buffer. -/
def combine_results {Img : Type} (original_image : Img)
    (results_list : List (List (Img → Img))) : Img :=
  results_list.foldl (fun acc results => results.foldl (fun a r => r a) acc)
    original_image

/-- cv2 `cvtColor(..., COLOR_BGR2RGB)` on a 3-channel image: swap the first
and third channel of every pixel (marine.py line 65). -/
def bgr2rgb {α : Type} (p : α × α × α) : α × α × α :=
  (p.2.2, p.2.1, p.1)

/-- cv2 `cvtColor(..., COLOR_BGR2RGB)` mapped over the whole grid. -/
def cvtColor_BGR2RGB {α : Type} (img : Grid (α × α × α)) : Grid (α × α × α) :=
  img.map (List.map bgr2rgb)

/-- numpy `combined_image[..., ::-1]` (marine.py line 66): reverse the
channel axis, i.e. swap the first and third channel of every pixel. -/
def reverse_channel_axis {α : Type} (img : Grid (α × α × α)) : Grid (α × α × α) :=
  img.map (List.map (fun p : α × α × α => (p.2.2, p.2.1, p.1)))

/-- marine.py lines 43-68, `save_combined_image` for one image: apply the
EXIF orientation correction, composite all detections via
`combine_results`, then the two colorspace steps of lines 65-66, producing
the array handed to `Image.fromarray(...).save(...)`. -/
def save_combined_image {α : Type} (exif : Option (List (Nat × Nat)))
    (original_image : Grid (α × α × α))
    (combined_results : List (List (Grid (α × α × α) → Grid (α × α × α)))) :
    Grid (α × α × α) :=
  reverse_channel_axis
    (cvtColor_BGR2RGB
      (combine_results (applyExifOrientation exif original_image) combined_results))

/-- marine.py lines 122-130 and 203-206: the per-frame ensemble loop.
Each model is consumed through the black-box inference contract
`detect frame threshold`; a detector returning `none` models a raised
exception.  The loop pairs `models[i]` with `confs_threshold[i]`
positionally, so running out of thresholds models the `IndexError` of
`confs_threshold[i]`.  `none` overall is an exception escaping the loop
(caught by the `try` of the video pipeline at line 202, uncaught in the image
pipeline); `some acc` is the final `combined_results` accumulator, extended
by the output of each detector in ensemble order. -/
def run_ensemble {F C R : Type} (models : List (F → C → Option (List R)))
    (confs : List C) (frame : F) : Option (List R) :=
  match models, confs with
  | [], _ => some []
  | _ :: _, [] => none
  | m :: ms, c :: cs =>
    match m frame c with
    | none => none
    | some rs => (run_ensemble ms cs frame).map (fun rest => rs ++ rest)

/-- The per-detector outputs of a succeeding ensemble run, in ensemble
order (specification side of claim C7). -/
def ensemble_outputs {F C R : Type} (models : List (F → C → Option (List R)))
    (confs : List C) (frame : F) : List (List R) :=
  (models.zip confs).map (fun p => (p.1 frame p.2).getD [])

/-- marine.py line 222: `if max_frames and processed_frames >= max_frames`.
`max_frames = none` models Python `None`; the Python truthiness test makes
a zero limit falsy. -/
def max_frames_reached (max_frames : Option Int) (processed_frames : Nat) : Bool :=
  match max_frames with
  | none => false
  | some m => decide (m ≠ 0) && decide (m ≤ (processed_frames : Int))

/-- marine.py lines 192-224, the frame loop of `predict_on_video` after the
video was opened: `frames` are the frames `cap.read()` will deliver in
order (the empty tail is the read failure treated as end-of-stream at line
197), `processed_frames` the counter of line 192.  `annotate f rs` models
`combine_results(frame, combined_results)` followed by `out.write(...)`
inside the second `try` (lines 212-217); `none` is an exception caught
there.  The result is the list of frames written to the output video and
the number of successful `cap.read()` calls. -/
def predict_on_video_loop {F C R A : Type} (models : List (F → C → Option (List R)))
    (confs : List C) (annotate : F → List R → Option A) (max_frames : Option Int) :
    List F → Nat → List A × Nat
  | [], _ => ([], 0)
  | f :: fs, processed_frames =>
    match run_ensemble models confs f with
    | none =>
      let r := predict_on_video_loop models confs annotate max_frames fs processed_frames
      (r.1, r.2 + 1)
    | some combined =>
      match annotate f combined with
      | none =>
        let r := predict_on_video_loop models confs annotate max_frames fs processed_frames
        (r.1, r.2 + 1)
      | some a =>
        if max_frames_reached max_frames (processed_frames + 1) then ([a], 1)
        else
          let r := predict_on_video_loop models confs annotate max_frames fs
            (processed_frames + 1)
          (a :: r.1, r.2 + 1)

/-- The fuel supplied by `range_stream` is always sufficient: with more fuel
than bytes available, the loop of main.py lines 148-154 emits exactly the
first `remaining` bytes after the seek position (all of them if the file is
exhausted first). -/
theorem rangeStreamFuel_eq_take :
    ∀ (fuel : Nat) (l : List Nat) (n : Int), l.length < fuel →
      rangeStreamFuel fuel l n = l.take n.toNat := by
  intro fuel
  induction fuel with
  | zero => intro l n h; omega
  | succ fuel ih =>
    intro l n h
    by_cases hn : 0 < n
    · simp only [rangeStreamFuel, if_pos hn]
      by_cases hc : (l.take (min 4096 n).toNat).length = 0
      · simp only [hc, if_pos]
        have hk1 : 1 ≤ (min 4096 n).toNat := by omega
        have hl0 : l.length = 0 := by
          have := List.length_take (min 4096 n).toNat l
          omega
        have : l = [] := List.length_eq_zero.mp hl0
        subst this
        simp
      · simp only [hc, if_neg, if_false]
        have hlt : (l.drop (l.take (min 4096 n).toNat).length).length < fuel := by
          have h1 := List.length_take (min 4096 n).toNat l
          have h2 := List.length_drop (l.take (min 4096 n).toNat).length l
          omega
        rw [ih _ _ hlt]
        have hklen := List.length_take (min 4096 n).toNat l
        rcases le_or_lt l.length (min 4096 n).toNat with hA | hB
        · -- the read consumes the whole remainder of the file
          have htake : l.take (min 4096 n).toNat = l := List.take_of_length_le hA
          rw [htake]
          rw [List.drop_length]
          have : l.length ≤ n.toNat := by omega
          rw [List.take_of_length_le this]
          simp
        · -- a full chunk of (min 4096 n).toNat bytes is read
          have hclen : (l.take (min 4096 n).toNat).length = (min 4096 n).toNat := by omega
          rw [hclen]
          have hkn : (min 4096 n).toNat ≤ n.toNat := by omega
          have hsplit : n.toNat = (min 4096 n).toNat + (n - ↑(min 4096 n).toNat).toNat := by
            omega
          rw [hsplit, List.take_add]
    · simp only [rangeStreamFuel, if_neg hn]
      have : n.toNat = 0 := by omega
      rw [this, List.take_zero]

/-- The streamed payload of main.py lines 144-158 equals the first
`remaining` bytes after the seek position. -/
theorem range_stream_eq_take (l : List Nat) (n : Int) :
    range_stream l n = l.take n.toNat :=
  rangeStreamFuel_eq_take _ l n (Nat.lt_succ_self _)

/-- Unfolding of the handler on any header that parses: status 206, a
`Content-Range` naming the clamped end, the `Content-Length` left at the
full file size, and the payload streamed from the seek position. -/
theorem get_result_video_parsed (file : List Nat) (h : List Char) (s e : Int)
    (hparse : parseRangeHeader h ↑file.length = some (s, e)) :
    get_result_video file (some h) =
      Except.ok
        { status := 206
          contentRange :=
            some s!"bytes {s}-{min e ((file.length : Int) - 1)}/{(file.length : Int)}"
          contentLength := file.length
          payload :=
            (file.drop s.toNat).take (min e ((file.length : Int) - 1) - s + 1).toNat } := by
  simp only [get_result_video, hparse, range_stream_eq_take]

/-- An in-bounds slice of a file written out byte by byte: the `n` bytes
starting at offset `s` are the file's bytes at offsets `s`, `s+1`, …. -/
theorem drop_take_eq_range_map (file : List Nat) (s n : Nat) (h : s + n ≤ file.length) :
    (file.drop s).take n = (List.range n).map (fun i => file.getD (s + i) 0) := by
  apply List.ext_getElem
  · simp
    omega
  · intro i h1 h2
    simp only [List.getElem_take, List.getElem_drop, List.getElem_map, List.getElem_range]
    have hi : s + i < file.length := by
      simp at h1
      omega
    rw [List.getD_eq_getElem?_getD, List.getElem?_eq_getElem hi]
    rfl

/-- Claim C1: for every existing file of size `S` and well-formed range
header parsing to `start ≤ end < S`, the handler answers 206 with
`Content-Range: bytes start-end/S` and streams exactly `end - start + 1`
bytes, namely the file's bytes at offsets `start` through `end`; an omitted
start parses to `0` and an omitted end to `S - 1` (witnessed by the header
`bytes=-`). -/
theorem get_result_video_valid_range (file : List Nat) (h : List Char) (s e : Int)
    (hparse : parseRangeHeader h ↑file.length = some (s, e))
    (h0s : 0 ≤ s) (hse : s ≤ e) (heS : e < ↑file.length) :
    get_result_video file (some h) =
      Except.ok
        { status := 206
          contentRange := some s!"bytes {s}-{e}/{(file.length : Int)}"
          contentLength := file.length
          payload := (List.range (e - s + 1).toNat).map (fun i => file.getD (s.toNat + i) 0) } ∧
    ((List.range (e - s + 1).toNat).map (fun i => file.getD (s.toNat + i) 0)).length
        = (e - s + 1).toNat ∧
    parseRangeHeader "bytes=-".toList ↑file.length = some (0, (file.length : Int) - 1) := by
  have hmin : min e ((file.length : Int) - 1) = e := by omega
  have hrec := get_result_video_parsed file h s e hparse
  rw [hmin] at hrec
  have hslice := drop_take_eq_range_map file s.toNat (e - s + 1).toNat (by omega)
  rw [hslice] at hrec
  exact ⟨hrec, by simp, rfl⟩

/-- Claim C1 witness: a 10-byte file and the header `bytes=2-5`. -/
theorem get_result_video_valid_range_witness :
    parseRangeHeader "bytes=2-5".toList
        ↑([3, 1, 4, 1, 5, 9, 2, 6, 5, 3] : List Nat).length = some (2, 5) ∧
    (0 : Int) ≤ 2 ∧ (2 : Int) ≤ 5 ∧
    (5 : Int) < ↑([3, 1, 4, 1, 5, 9, 2, 6, 5, 3] : List Nat).length ∧
    (get_result_video [3, 1, 4, 1, 5, 9, 2, 6, 5, 3] (some "bytes=2-5".toList) =
      Except.ok
        { status := 206
          contentRange :=
            some s!"bytes {(2 : Int)}-{(5 : Int)}/{(([3, 1, 4, 1, 5, 9, 2, 6, 5, 3] : List Nat).length : Int)}"
          contentLength := ([3, 1, 4, 1, 5, 9, 2, 6, 5, 3] : List Nat).length
          payload :=
            (List.range ((5 : Int) - 2 + 1).toNat).map
              (fun i => ([3, 1, 4, 1, 5, 9, 2, 6, 5, 3] : List Nat).getD ((2 : Int).toNat + i) 0) } ∧
      ((List.range ((5 : Int) - 2 + 1).toNat).map
          (fun i => ([3, 1, 4, 1, 5, 9, 2, 6, 5, 3] : List Nat).getD ((2 : Int).toNat + i) 0)).length
        = ((5 : Int) - 2 + 1).toNat ∧
      parseRangeHeader "bytes=-".toList ↑([3, 1, 4, 1, 5, 9, 2, 6, 5, 3] : List Nat).length
        = some (0, (([3, 1, 4, 1, 5, 9, 2, 6, 5, 3] : List Nat).length : Int) - 1)) :=
  ⟨by decide, by decide, by decide, by decide,
    get_result_video_valid_range [3, 1, 4, 1, 5, 9, 2, 6, 5, 3] "bytes=2-5".toList 2 5
      (by decide) (by decide) (by decide) (by decide)⟩

/-- Claim C5: for every range request whose parsed end reaches past the last
byte offset (and whose start is inside the file), the handler clamps the end
to `file_size - 1` before computing the chunk size: the payload is the whole
tail of the file from `start` (exactly `file_size - start` bytes) and the
`Content-Range` header names the clamped end. -/
theorem get_result_video_end_clamped (file : List Nat) (h : List Char) (s e : Int)
    (hparse : parseRangeHeader h ↑file.length = some (s, e))
    (h0s : 0 ≤ s) (hsS : s < ↑file.length) (hSe : ↑file.length ≤ e + 1) :
    get_result_video file (some h) =
      Except.ok
        { status := 206
          contentRange := some s!"bytes {s}-{(file.length : Int) - 1}/{(file.length : Int)}"
          contentLength := file.length
          payload := file.drop s.toNat } ∧
    ((file.drop s.toNat).length : Int) = ↑file.length - s := by
  have hmin : min e ((file.length : Int) - 1) = (file.length : Int) - 1 := by omega
  have hrec := get_result_video_parsed file h s e hparse
  rw [hmin] at hrec
  have htake : (file.drop s.toNat).take ((file.length : Int) - 1 - s + 1).toNat
      = file.drop s.toNat := by
    apply List.take_of_length_le
    rw [List.length_drop]
    omega
  rw [htake] at hrec
  refine ⟨hrec, ?_⟩
  rw [List.length_drop]
  omega

/-- Claim C5 witness: the header `bytes=7-2000` on a 10-byte file clamps the
end to 9 and streams the last 3 bytes. -/
theorem get_result_video_end_clamped_witness :
    parseRangeHeader "bytes=7-2000".toList
        ↑([3, 1, 4, 1, 5, 9, 2, 6, 5, 3] : List Nat).length = some (7, 2000) ∧
    (0 : Int) ≤ 7 ∧ (7 : Int) < ↑([3, 1, 4, 1, 5, 9, 2, 6, 5, 3] : List Nat).length ∧
    ↑([3, 1, 4, 1, 5, 9, 2, 6, 5, 3] : List Nat).length ≤ (2000 : Int) + 1 ∧
    (get_result_video [3, 1, 4, 1, 5, 9, 2, 6, 5, 3] (some "bytes=7-2000".toList) =
      Except.ok
        { status := 206
          contentRange :=
            some s!"bytes {(7 : Int)}-{(([3, 1, 4, 1, 5, 9, 2, 6, 5, 3] : List Nat).length : Int) - 1}/{(([3, 1, 4, 1, 5, 9, 2, 6, 5, 3] : List Nat).length : Int)}"
          contentLength := ([3, 1, 4, 1, 5, 9, 2, 6, 5, 3] : List Nat).length
          payload := ([3, 1, 4, 1, 5, 9, 2, 6, 5, 3] : List Nat).drop (7 : Int).toNat } ∧
      ((([3, 1, 4, 1, 5, 9, 2, 6, 5, 3] : List Nat).drop (7 : Int).toNat).length : Int)
        = ↑([3, 1, 4, 1, 5, 9, 2, 6, 5, 3] : List Nat).length - 7) :=
  ⟨by decide, by decide, by decide, by decide,
    get_result_video_end_clamped [3, 1, 4, 1, 5, 9, 2, 6, 5, 3] "bytes=7-2000".toList 7 2000
      (by decide) (by decide) (by decide) (by decide)⟩

/-- Claim C6: a range header that does not parse — the piece before or after
the hyphen is nonempty but not an integer, or the shape is not
`start-end` at all — makes the handler return a 400 client error, with no
payload bytes emitted. -/
theorem get_result_video_malformed_range (file : List Nat) (h : List Char)
    (hbad : parseRangeHeader h ↑file.length = none) :
    get_result_video file (some h) = Except.error 400 := by
  simp only [get_result_video, hbad]

/-- Claim C6 witness: the header `bytes=abc` on a 3-byte file. -/
theorem get_result_video_malformed_range_witness :
    parseRangeHeader "bytes=abc".toList ↑([7, 8, 9] : List Nat).length = none ∧
    get_result_video [7, 8, 9] (some "bytes=abc".toList) = Except.error 400 :=
  ⟨by decide,
    get_result_video_malformed_range [7, 8, 9] "bytes=abc".toList (by decide)⟩

set_option maxRecDepth 40000 in
/-- Claim C2 (code bug): on the range request `bytes=0-99` against a
1000-byte file the handler streams exactly 100 bytes, but the
`Content-Length` header — set once at main.py line 131 from the full file
size and never updated to `chunk_size` — still says 1000.  The response
therefore carries `Content-Length = 1000 ≠ 100`, contradicting the
specified `Content-Length equal to chunk_size`. -/
theorem get_result_video_content_length_bug :
    get_result_video (List.replicate 1000 7) (some "bytes=0-99".toList) =
      Except.ok
        { status := 206
          contentRange := some "bytes 0-99/1000"
          contentLength := 1000
          payload := List.replicate 100 7 } ∧
    (List.replicate 100 7 : List Nat).length = 100 ∧
    (1000 : Nat) ≠ 100 := by
  refine ⟨?_, by decide, by decide⟩
  have hrec := get_result_video_parsed (List.replicate 1000 7) "bytes=0-99".toList 0 99
    (by decide)
  rw [hrec]
  rfl

set_option maxRecDepth 40000 in
/-- Claim C10 counterexample: on a 1000-byte file the well-formed header
`bytes=5-3` parses to start 5 and (clamped) end 3, so start exceeds the
clamped end — but the `Content-Range` emitted is `bytes 5-3/1000`, not the
`bytes 5-999/1000` the claim's formula `bytes start-(file_size-1)/file_size`
predicts. -/
theorem range_start_beyond_end_counterexample :
    get_result_video (List.replicate 1000 7) (some "bytes=5-3".toList) =
      Except.ok
        { status := 206
          contentRange := some "bytes 5-3/1000"
          contentLength := 1000
          payload := [] } ∧
    ("bytes 5-3/1000" : String) ≠ "bytes 5-999/1000" := by
  constructor
  · have hrec := get_result_video_parsed (List.replicate 1000 7) "bytes=5-3".toList 5 3
      (by decide)
    rw [hrec]
    rfl
  · decide

/-- Claim C10 amended: for every well-formed range header whose parsed start
exceeds the clamped end `min end (file_size - 1)`, the handler does not
raise and does not return 416: it responds 206 with
`Content-Range: bytes start-min(end, file_size-1)/file_size` and an empty
payload, because `chunk_size ≤ 0` makes the streaming loop's guard
`remaining > 0` immediately false. -/
theorem range_start_beyond_end_amended (file : List Nat) (h : List Char) (s e : Int)
    (hparse : parseRangeHeader h ↑file.length = some (s, e))
    (hlt : min e ((file.length : Int) - 1) < s) :
    get_result_video file (some h) =
      Except.ok
        { status := 206
          contentRange :=
            some s!"bytes {s}-{min e ((file.length : Int) - 1)}/{(file.length : Int)}"
          contentLength := file.length
          payload := [] } := by
  have hrec := get_result_video_parsed file h s e hparse
  have hchunk : (min e ((file.length : Int) - 1) - s + 1).toNat = 0 := by omega
  rw [hchunk, List.take_zero] at hrec
  exact hrec

/-- Claim C10 amended, witness: `bytes=1500-` on a 10-byte file (start past
end of file, end defaulting to 9). -/
theorem range_start_beyond_end_amended_witness :
    parseRangeHeader "bytes=1500-".toList
        ↑([3, 1, 4, 1, 5, 9, 2, 6, 5, 3] : List Nat).length = some (1500, 9) ∧
    min (9 : Int) ((([3, 1, 4, 1, 5, 9, 2, 6, 5, 3] : List Nat).length : Int) - 1) < 1500 ∧
    get_result_video [3, 1, 4, 1, 5, 9, 2, 6, 5, 3] (some "bytes=1500-".toList) =
      Except.ok
        { status := 206
          contentRange :=
            some s!"bytes {(1500 : Int)}-{min (9 : Int) ((([3, 1, 4, 1, 5, 9, 2, 6, 5, 3] : List Nat).length : Int) - 1)}/{(([3, 1, 4, 1, 5, 9, 2, 6, 5, 3] : List Nat).length : Int)}"
          contentLength := ([3, 1, 4, 1, 5, 9, 2, 6, 5, 3] : List Nat).length
          payload := [] } :=
  ⟨by decide, by decide,
    range_start_beyond_end_amended [3, 1, 4, 1, 5, 9, 2, 6, 5, 3] "bytes=1500-".toList 1500 9
      (by decide) (by decide)⟩

/-- A succeeding ensemble run concatenates the per-detector outputs in
ensemble order (marine.py lines 122-130 / 203-206). -/
theorem run_ensemble_eq_flatten {F C R : Type} :
    ∀ (models : List (F → C → Option (List R))) (confs : List C) (frame : F),
      models.length = confs.length →
      (∀ p ∈ models.zip confs, (p.1 frame p.2).isSome) →
      run_ensemble models confs frame = some (ensemble_outputs models confs frame).flatten := by
  intro models
  induction models with
  | nil => intro confs frame _ _; rfl
  | cons m ms ih =>
    intro confs frame hlen hok
    cases confs with
    | nil => simp at hlen
    | cons c cs =>
      have hm : (m frame c).isSome := hok (m, c) (by simp)
      obtain ⟨rs, hrs⟩ := Option.isSome_iff_exists.mp hm
      have hrest := ih cs frame (by simpa using hlen)
        (fun p hp => hok p (by simp [hp]))
      simp only [run_ensemble, hrs, hrest, Option.map_some, ensemble_outputs,
        List.zip_cons_cons, List.map_cons, List.flatten_cons]
      simp [ensemble_outputs]

/-- Claim C7: with as many thresholds as detectors and every detector
succeeding on the frame, the FrameResult accumulated by the per-frame loop
is the concatenation, in ensemble order, of the per-detector outputs, and
its length is the sum of the per-detector detection counts; an empty
ensemble yields an empty FrameResult on every frame without error. -/
theorem run_ensemble_concat {F C R : Type} (models : List (F → C → Option (List R)))
    (confs : List C) (frame : F) (cs0 : List C) (f0 : F)
    (hlen : models.length = confs.length)
    (hok : ∀ p ∈ models.zip confs, (p.1 frame p.2).isSome) :
    run_ensemble models confs frame = some (ensemble_outputs models confs frame).flatten ∧
    (ensemble_outputs models confs frame).flatten.length
        = ((ensemble_outputs models confs frame).map List.length).sum ∧
    run_ensemble ([] : List (F → C → Option (List R))) cs0 f0 = some [] :=
  ⟨run_ensemble_eq_flatten models confs frame hlen hok, by simp, rfl⟩

/-- Claim C7 witness: two detectors with thresholds `[7, 9]` on frame `5`,
producing one and two detections respectively. -/
theorem run_ensemble_concat_witness :
    ([fun (_ : Nat) (c : Nat) => some [c], fun (f : Nat) (_ : Nat) => some [f, f]] :
        List (Nat → Nat → Option (List Nat))).length = ([7, 9] : List Nat).length ∧
    run_ensemble
        [fun (_ : Nat) (c : Nat) => some [c], fun (f : Nat) (_ : Nat) => some [f, f]]
        [7, 9] 5
      = some (ensemble_outputs
          [fun (_ : Nat) (c : Nat) => some [c], fun (f : Nat) (_ : Nat) => some [f, f]]
          [7, 9] 5).flatten ∧
    (ensemble_outputs
        [fun (_ : Nat) (c : Nat) => some [c], fun (f : Nat) (_ : Nat) => some [f, f]]
        [7, 9] 5).flatten.length
      = ((ensemble_outputs
          [fun (_ : Nat) (c : Nat) => some [c], fun (f : Nat) (_ : Nat) => some [f, f]]
          [7, 9] 5).map List.length).sum ∧
    run_ensemble ([] : List (Nat → Nat → Option (List Nat))) [1, 2, 3] 0 = some [] := by
  refine ⟨rfl, ?_⟩
  exact run_ensemble_concat
    [fun (_ : Nat) (c : Nat) => some [c], fun (f : Nat) (_ : Nat) => some [f, f]]
    [7, 9] 5 [1, 2, 3] 0 rfl
    (by intro p hp; fin_cases hp <;> rfl)

/-- Appending further detectors after an ensemble prefix whose run already
raised leaves the run raised: the detectors after the failure never
contribute (the exception propagates out of the `for` loop at once). -/
theorem run_ensemble_append_none {F C R : Type} :
    ∀ (models ms2 : List (F → C → Option (List R))) (confs : List C) (frame : F),
      run_ensemble models confs frame = none →
      run_ensemble (models ++ ms2) confs frame = none := by
  intro models
  induction models with
  | nil => intro ms2 confs frame hfail; simp [run_ensemble] at hfail
  | cons m ms ih =>
    intro ms2 confs frame hfail
    cases confs with
    | nil => rfl
    | cons c cs =>
      rw [List.cons_append]
      cases hm : m frame c with
      | none => simp only [run_ensemble, hm]
      | some rs =>
        have hrest : run_ensemble ms cs frame = none := by
          simp only [run_ensemble, hm] at hfail
          exact Option.map_eq_none'.mp hfail
        simp only [run_ensemble, hm, ih ms2 cs frame hrest, Option.map_none']

/-- Claim C3, amended: when a detector raises during inference on a frame,
the exception is caught (marine.py lines 207-209) and the frame loop
continues with the remaining frames — but the whole ensemble invocation for
that frame is abandoned: detectors appended after the failing run
contribute nothing, and no annotated frame is written for that frame (the
written output and processed count are those of the remaining frames; the
frame only counts as one more successful read). -/
theorem video_detector_failure_skips_frame {F C R A : Type}
    (models ms2 : List (F → C → Option (List R))) (confs : List C)
    (annotate : F → List R → Option A) (max_frames : Option Int)
    (f : F) (fs : List F) (p : Nat)
    (hfail : run_ensemble models confs f = none) :
    run_ensemble (models ++ ms2) confs f = none ∧
    predict_on_video_loop models confs annotate max_frames (f :: fs) p =
      ((predict_on_video_loop models confs annotate max_frames fs p).1,
       (predict_on_video_loop models confs annotate max_frames fs p).2 + 1) := by
  refine ⟨run_ensemble_append_none models ms2 confs f hfail, ?_⟩
  simp only [predict_on_video_loop, hfail]

/-- Claim C3 amended, witness: a one-detector ensemble that raises on frame
`7`, with a succeeding detector appended after it. -/
theorem video_detector_failure_skips_frame_witness :
    run_ensemble ([fun _ _ => none] : List (Nat → Nat → Option (List Nat))) [0, 0] 7 = none ∧
    (run_ensemble
        (([fun _ _ => none] : List (Nat → Nat → Option (List Nat))) ++ [fun _ _ => some [42]])
        [0, 0] 7 = none ∧
      predict_on_video_loop ([fun _ _ => none] : List (Nat → Nat → Option (List Nat))) [0, 0]
          (fun (f : Nat) (rs : List Nat) => some (f :: rs)) none [7] 0 =
        ((predict_on_video_loop ([fun _ _ => none] : List (Nat → Nat → Option (List Nat))) [0, 0]
            (fun (f : Nat) (rs : List Nat) => some (f :: rs)) none [] 0).1,
         (predict_on_video_loop ([fun _ _ => none] : List (Nat → Nat → Option (List Nat))) [0, 0]
            (fun (f : Nat) (rs : List Nat) => some (f :: rs)) none [] 0).2 + 1)) :=
  ⟨rfl,
    video_detector_failure_skips_frame [fun _ _ => none] [fun _ _ => some [42]] [0, 0]
      (fun (f : Nat) (rs : List Nat) => some (f :: rs)) none 7 [] 0 rfl⟩

/-- Claim C3 counterexample: ensemble of two detectors on the single frame
`7`; the first detector raises, the second would report detection `42` —
yet the frame produces no output at all (nothing is written, only the read
is consumed), so the surviving detector does not contribute to the frame,
contrary to the claim. -/
theorem video_detector_failure_counterexample :
    (fun (_ : Nat) (_ : Nat) => some [42] : Nat → Nat → Option (List Nat)) 7 0
      = some [42] ∧
    run_ensemble
        ([fun _ _ => none, fun _ _ => some [42]] : List (Nat → Nat → Option (List Nat)))
        [0, 0] 7 = none ∧
    predict_on_video_loop
        ([fun _ _ => none, fun _ _ => some [42]] : List (Nat → Nat → Option (List Nat)))
        [0, 0] (fun f rs => some (f :: rs)) none [7] 0 = ([], 1) :=
  ⟨rfl, rfl, rfl⟩

/-- While the frame limit has not been reached and every frame processes
successfully, the loop writes one frame per iteration and stops exactly
when the counter reaches the limit. -/
theorem predict_on_video_loop_limit {F C R A : Type}
    (models : List (F → C → Option (List R))) (confs : List C)
    (annotate : F → List R → Option A) (m : Int) :
    ∀ (frames : List F) (p : Nat),
      (∀ f ∈ frames, ∃ rs a, run_ensemble models confs f = some rs ∧ annotate f rs = some a) →
      0 < m → (p : Int) < m → m - p ≤ frames.length →
      (predict_on_video_loop models confs annotate (some m) frames p).1.length
          = (m - p).toNat ∧
      (predict_on_video_loop models confs annotate (some m) frames p).2 = (m - p).toNat := by
  intro frames
  induction frames with
  | nil =>
    intro p hok hm hpm hlen
    simp at hlen
    omega
  | cons f fs ih =>
    intro p hok hm hpm hlen
    obtain ⟨rs, a, hrs, ha⟩ := hok f (List.mem_cons_self f fs)
    simp only [predict_on_video_loop, hrs, ha]
    by_cases hle : m ≤ (p : Int) + 1
    · have hreach : max_frames_reached (some m) (p + 1) = true := by
        simp only [max_frames_reached, Bool.and_eq_true, decide_eq_true_eq]
        constructor
        · omega
        · push_cast
          omega
      rw [hreach]
      simp only [if_true, List.length_cons, List.length_nil]
      omega
    · have hreach : max_frames_reached (some m) (p + 1) = false := by
        simp only [max_frames_reached, Bool.and_eq_false_iff, decide_eq_false_iff_not]
        right
        push_cast
        omega
      rw [hreach]
      simp only [Bool.false_eq_true, if_false]
      have hrec := ih (p + 1) (fun g hg => hok g (List.mem_cons_of_mem f hg)) hm
        (by push_cast; omega) (by simp at hlen ⊢; omega)
      simp only [List.length_cons]
      push_cast at hrec ⊢
      omega

/-- Claim C4: on a video whose readable frames all process successfully,
with a positive frame limit `m` smaller than the frame count, the loop
writes exactly `m` annotated frames and performs exactly `m` reads — it
stops without reading any further input frame. -/
theorem predict_on_video_max_frames {F C R A : Type}
    (models : List (F → C → Option (List R))) (confs : List C)
    (annotate : F → List R → Option A) (frames : List F) (m : Int)
    (hok : ∀ f ∈ frames, ∃ rs a, run_ensemble models confs f = some rs ∧ annotate f rs = some a)
    (hm : 0 < m) (hmK : m < frames.length) :
    (predict_on_video_loop models confs annotate (some m) frames 0).1.length = m.toNat ∧
    (predict_on_video_loop models confs annotate (some m) frames 0).2 = m.toNat := by
  have h := predict_on_video_loop_limit models confs annotate m frames 0 hok hm
    (by omega) (by omega)
  simpa using h

/-- Claim C4 witness: one detector, three readable frames, limit 2 — two
frames written, two reads, the third frame never read. -/
theorem predict_on_video_max_frames_witness :
    (0 : Int) < 2 ∧ (2 : Int) < ([10, 20, 30] : List Nat).length ∧
    (predict_on_video_loop ([fun f c => some [f + c]] : List (Nat → Nat → Option (List Nat)))
        [1] (fun f rs => some (f + rs.length)) (some 2) [10, 20, 30] 0).1.length
      = (2 : Int).toNat ∧
    (predict_on_video_loop ([fun f c => some [f + c]] : List (Nat → Nat → Option (List Nat)))
        [1] (fun f rs => some (f + rs.length)) (some 2) [10, 20, 30] 0).2
      = (2 : Int).toNat := by
  have h := predict_on_video_max_frames
    ([fun f c => some [f + c]] : List (Nat → Nat → Option (List Nat)))
    [1] (fun f rs => some (f + rs.length)) [10, 20, 30] 2
    (by intro f hf; exact ⟨[f + 1], f + 1, rfl, rfl⟩) (by decide) (by decide)
  exact ⟨by decide, by decide, h.1, h.2⟩

/-- Claim C8: the EXIF step of `save_combined_image` rotates the base image
by 180 degrees when the orientation tag is 3, by 270 when it is 6 and by 90
when it is 8 (PIL counterclockwise rotations on the pixel grid), and an
image with missing (`None`) or unreadable EXIF data, or without the
orientation tag, is left unrotated with no error raised. -/
theorem applyExifOrientation_spec {α : Type} (img : Grid α) (d : List (Nat × Nat)) :
    applyExifOrientation none img = img ∧
    (lookupTag orientationTagId d = some 3 →
      applyExifOrientation (some d) img = rotate180 img) ∧
    (lookupTag orientationTagId d = some 6 →
      applyExifOrientation (some d) img = rotate270 img) ∧
    (lookupTag orientationTagId d = some 8 →
      applyExifOrientation (some d) img = rotate90 img) ∧
    (lookupTag orientationTagId d = none → applyExifOrientation (some d) img = img) := by
  refine ⟨rfl, ?_, ?_, ?_, ?_⟩ <;> intro h <;> simp [applyExifOrientation, h]

/-- Claim C8 witness: a 2x2 image with orientation tag 3 is rotated 180
degrees; an EXIF dictionary without the orientation tag leaves it alone. -/
theorem applyExifOrientation_spec_witness :
    lookupTag orientationTagId [(274, 3)] = some 3 ∧
    applyExifOrientation (some [(274, 3)]) ([[1, 2], [3, 4]] : Grid Nat)
      = rotate180 [[1, 2], [3, 4]] ∧
    lookupTag orientationTagId [(306, 1)] = none ∧
    applyExifOrientation (some [(306, 1)]) ([[1, 2], [3, 4]] : Grid Nat) = [[1, 2], [3, 4]] :=
  ⟨by decide,
    (applyExifOrientation_spec ([[1, 2], [3, 4]] : Grid Nat) [(274, 3)]).2.1 (by decide),
    by decide,
    (applyExifOrientation_spec ([[1, 2], [3, 4]] : Grid Nat) [(306, 1)]).2.2.2.2 (by decide)⟩

/-- Claim C9: the colorspace normalization of marine.py lines 65-66 — a
BGR-to-RGB channel swap followed by a reversal of the channel axis —
composes to the identity on every 3-channel array, so the array saved to
disk equals the composited array produced by `combine_results` exactly. -/
theorem save_combined_image_colorspace_identity {α : Type}
    (m : Grid (α × α × α)) (exif : Option (List (Nat × Nat)))
    (img : Grid (α × α × α))
    (rl : List (List (Grid (α × α × α) → Grid (α × α × α)))) :
    reverse_channel_axis (cvtColor_BGR2RGB m) = m ∧
    save_combined_image exif img rl = combine_results (applyExifOrientation exif img) rl := by
  have hcomp : ((fun p : α × α × α => (p.2.2, p.2.1, p.1)) ∘ bgr2rgb) = id :=
    funext fun p => rfl
  have hid : ∀ m2 : Grid (α × α × α), reverse_channel_axis (cvtColor_BGR2RGB m2) = m2 := by
    intro m2
    simp [reverse_channel_axis, cvtColor_BGR2RGB, List.map_map, hcomp]
  exact ⟨hid m, hid _⟩

example : stripChars " bytes=0-99 ".toList = "bytes=0-99".toList := by decide

example : parseRangeHeader "bytes=0-99".toList 1000 = some (0, 99) := by decide

example : parseRangeHeader "bytes=abc".toList 1000 = none := by decide

example : parseRangeHeader "bytes=-".toList 1000 = some (0, 999) := by decide

example : range_stream [1, 2, 3, 4, 5] 3 = [1, 2, 3] := by decide

example :
    get_result_video [10, 11, 12, 13] (some "bytes=1-2".toList) =
      Except.ok
        { status := 206
          contentRange := some "bytes 1-2/4"
          contentLength := 4
          payload := [11, 12] } := rfl

end MarineDetect
